import Mathlib

/-!
# Tap adapter: verification development

A shallow embedding of `adapter/adapter_linux.go` (the character-device
platform, `tapInterface`) and `adapter/adapter_windows.go` (the driver-handle
platform, `tapAdapter`).

Conventions of the embedding

* a Go `[]byte` / `string` is a `List Byte`; a fixed array is a list of the
  array's length;
* a Go function that may panic returns an `Option`, `none` being the panic;
* a Go `(value, error)` pair is an `Except`;
* operating-system calls are fields of an environment record (a mock backend);
  the resources a call acquires or releases are tracked in an explicit list of
  live resources that is threaded through the code.
-/

set_option linter.unusedVariables false

namespace Adapter

/-! ## Bytes, slices, errors -/

/-- Equality of Go `(value, error)` results can be decided. -/
instance instDecidableEqExcept {ε α : Type} [DecidableEq ε] [DecidableEq α] :
    DecidableEq (Except ε α)
  | .ok a, .ok b =>
    if h : a = b then isTrue (by rw [h]) else isFalse (fun h2 => h (Except.ok.inj h2))
  | .error a, .error b =>
    if h : a = b then isTrue (by rw [h]) else isFalse (fun h2 => h (Except.error.inj h2))
  | .ok _, .error _ => isFalse (fun h => Except.noConfusion h)
  | .error _, .ok _ => isFalse (fun h => Except.noConfusion h)

/-- One octet. -/
abbrev Byte := Fin 256

/-- A link-layer frame, Go `[]byte`. -/
abbrev Frame := List Byte

/-- An operating-system error number (`syscall.Errno`). -/
abbrev Errno := Nat

/-- Go built-in `copy(dst, src)`: overwrites the first `min (len dst) (len src)`
elements of `dst`; the length of `dst` does not change. -/
def copySlice (dst src : List Byte) : List Byte :=
  src.take dst.length ++ dst.drop src.length

/-- The zero value of a Go byte array of length `n`. -/
def zeroBytes (n : Nat) : List Byte := List.replicate n 0

/-- Go slice expression `s[0:i]`; panics (`none`) when `i` exceeds the length. -/
def sliceTo (s : List Byte) (i : Nat) : Option (List Byte) :=
  if i ≤ s.length then some (s.take i) else none

/-! ## `parseName` (adapter_linux.go) -/

/-- The scanning loop of `parseName`: `for ; i < len(s); i++ { if s[i] == 0 { break } }`.
The result is the value of `i` when the loop is left; `none` is an index out of
range or an exhausted iteration budget. -/
def parseNameLoop (s : List Byte) : Nat → Nat → Option Nat
  | 0, _ => none
  | fuel + 1, i =>
    if i < s.length then
      match s[i]? with
      | none => none
      | some b => if b = 0 then some i else parseNameLoop s fuel (i + 1)
    else some i

/-- Go `parseName(s []byte) string`: `i := 0`, the loop, `return string(s[0:i])`. -/
def parseName (s : List Byte) : Option (List Byte) :=
  match parseNameLoop s (s.length + 1) 0 with
  | none => none
  | some i => sliceTo s i

/-! ## Go channels -/

/-- A buffered Go channel of frames: the queued frames (oldest first), the
capacity given to `make`, and whether `close` has been called. -/
structure Chan where
  buf : List Frame
  cap : Nat
  closed : Bool
deriving DecidableEq, Repr

/-- Go `make(chan []byte, queueSize)`. -/
def makeChan (queueSize : Nat) : Chan := { buf := [], cap := queueSize, closed := false }

/-- What a receive `p, ok := <-c` does. -/
inductive RecvResult where
  /-- a queued frame is taken, `ok = true` -/
  | value (p : Frame) (c : Chan)
  /-- the channel is closed and drained, `ok = false` -/
  | drained
  /-- the channel is open and empty: the receiver waits -/
  | blocks
deriving DecidableEq, Repr

/-- Go receive `<-c`. -/
def Chan.recv (c : Chan) : RecvResult :=
  match c.buf with
  | p :: rest => .value p { c with buf := rest }
  | [] => if c.closed then .drained else .blocks

/-- What a send `c <- p` does. -/
inductive SendResult where
  /-- the frame is appended to the queue -/
  | sent (c : Chan)
  /-- the queue is full: the sender waits -/
  | blocks
  /-- send on a closed channel: run-time panic -/
  | panics
deriving DecidableEq, Repr

/-- Go send `c <- p`. -/
def Chan.send (c : Chan) (p : Frame) : SendResult :=
  if c.closed then .panics
  else if c.buf.length < c.cap then .sent { c with buf := c.buf ++ [p] }
  else .blocks

/-- Go built-in `close(c)`; closing a closed channel panics (`none`). -/
def Chan.close (c : Chan) : Option Chan :=
  if c.closed then none else some { c with closed := true }

/-! ## Errors and pump bookkeeping -/

/-- The Go `error` values the package returns. -/
inductive Error where
  /-- an operating-system error returned unchanged -/
  | errno (e : Errno)
  /-- Go `fmt.Errorf(msg + err.Error())` -/
  | wrapped (msg : String) (e : Errno)
  /-- the package variable `ErrAdapterNotFound` -/
  | ErrAdapterNotFound
  /-- the package variable `ErrInterfaceNameNotFound` -/
  | ErrInterfaceNameNotFound
deriving DecidableEq, Repr

/-- Where a pump stands when it is observed. -/
inductive PumpStatus where
  /-- the worker function returned -/
  | terminated
  /-- the worker waits in a channel receive or in a backend read -/
  | waiting
  /-- the worker hit a run-time panic -/
  | panicked
  /-- the iteration budget of the model ran out -/
  | running
deriving DecidableEq, Repr

/-- Modelled from the spec: `core.MacAddr` (package `core` is not part of the
sources at hand), "fixed 6-byte hardware address"; this is its zero value. -/
def MacAddr.zero : List Byte := zeroBytes 6

/-! ## The character-device platform (adapter_linux.go) -/

namespace Linux

def IFF_TUN : Nat := 0x0001
def IFF_TAP : Nat := 0x0002
def IFF_NO_PI : Nat := 0x1000

/-- Errno `EBADF`, what `close(2)` returns for a descriptor that is not open. -/
def EBADF : Errno := 9

/-- Go `net.Interface`, the fields the adapter reads. -/
structure NetInterface where
  Name : List Byte
  MTU : Int
  HardwareAddr : List Byte
deriving DecidableEq, Repr

/-- The operating-system calls `newTAP` makes, as a mock backend. -/
structure Env where
  /-- Go `unix.Open("/dev/net/tun", unix.O_RDWR, 0)` -/
  openTun : Except Errno Nat
  /-- the `TUNSETIFF` control call on a descriptor with a 32-byte request; on
  success the kernel's bytes overwrite the request in place -/
  tunSetIff : Nat → List Byte → Except Errno (List Byte)
  /-- Go `net.InterfaceByName` -/
  InterfaceByName : List Byte → Except Errno NetInterface

/-- Go `type tapInterface struct`. -/
structure tapInterface where
  fd : Nat
  mtu : Int
  name : List Byte
  macAddr : List Byte
  writeChannel : Chan
  readChannel : Chan
deriving DecidableEq, Repr

/-- Go `unix.Close(fd)` over the list of open descriptors: an open descriptor is
released, any other yields `EBADF`. -/
def unixClose (live : List Nat) (fd : Nat) : List Nat × Option Errno :=
  if fd ∈ live then (live.erase fd, none) else (live, some EBADF)

/-- Go `syscall.StringByteSlice`: the bytes of `s` followed by a zero byte;
panics (`none`) when `s` contains a zero byte. -/
def StringByteSlice (s : List Byte) : Option (List Byte) :=
  if (0 : Byte) ∈ s then none else some (s ++ [0])

/-- Go `binary.LittleEndian.PutUint16(b[off:], v)` on an array `b`. -/
def PutUint16 (b : List Byte) (off v : Nat) : List Byte :=
  (b.set off (Fin.ofNat (v % 256))).set (off + 1) (Fin.ofNat (v / 256 % 256))

/-- Lines 35 to 41 of `newTAP`: the 32-byte request handed to the control call.
`copy(ifr_req[0:15], b[:])` writes into the first 15 bytes of the array. -/
def newTAP_ifr_req (name : List Byte) : Option (List Byte) :=
  let flags : Nat := IFF_TAP ||| IFF_NO_PI
  let ifr_req := zeroBytes 32
  match StringByteSlice name with
  | none => none
  | some b =>
    let ifr_req :=
      if name ≠ [] ∧ b.length < 16 then copySlice (ifr_req.take 15) b ++ ifr_req.drop 15
      else ifr_req
    some (PutUint16 ifr_req 16 flags)

/-- Go `newTAP(name string, mtu, queueSize int) (Instance, error)`. The list of
open descriptors is threaded through; `none` is a panic. The two `go`
statements start `toTapWorker` and `fromTapWorker`, which are modelled apart. -/
def newTAP (env : Env) (name : List Byte) (mtu : Int) (queueSize : Nat) (live : List Nat) :
    Option (Except Error tapInterface × List Nat) :=
  match env.openTun with
  | .error e => some (.error (.wrapped "adapter: failed to open /dev/net/tun: " e), live)
  | .ok fd =>
    let live := fd :: live
    match newTAP_ifr_req name with
    | none => none
    | some req =>
      match env.tunSetIff fd req with
      | .error e =>
        some (.error (.wrapped "adapter: failed to set device to TAP mode: " e),
          (unixClose live fd).1)
      | .ok reply =>
        let ifr_req := copySlice req reply
        match parseName (ifr_req.take 16) with
        | none => none
        | some parsed =>
          let i : tapInterface :=
            { name := parsed, fd := fd, mtu := 0, macAddr := MacAddr.zero,
              writeChannel := makeChan queueSize, readChannel := makeChan queueSize }
          match env.InterfaceByName i.name with
          | .error e =>
            some (.error (.wrapped "adapter: failed find interface: " e), (unixClose live fd).1)
          | .ok iface =>
            let i := { i with macAddr := copySlice i.macAddr iface.HardwareAddr }
            let i := { i with mtu := iface.MTU }
            some (.ok i, live)

/-- The state of the transmit pump when it is observed. -/
structure WriteRun (σ : Type) where
  dev : σ
  chan : Chan
  logged : List Errno
  status : PumpStatus

/-- Go `(t *tapInterface) toTapWorker()`: `write` is `unix.Write` on the device
state `σ`; each iteration receives from `t.writeChannel` and writes the frame,
logging a write error and going on. -/
def tapInterface.toTapWorker {σ : Type} (write : σ → Nat → Frame → σ × Option Errno)
    (t : tapInterface) : Nat → Chan → σ → List Errno → WriteRun σ
  | 0, c, s, lg => { dev := s, chan := c, logged := lg, status := .running }
  | fuel + 1, c, s, lg =>
    match c.recv with
    | .drained => { dev := s, chan := c, logged := lg, status := .terminated }
    | .blocks => { dev := s, chan := c, logged := lg, status := .waiting }
    | .value p c' =>
      match write s t.fd p with
      | (s', some e) => tapInterface.toTapWorker write t fuel c' s' (lg ++ [e])
      | (s', none) => tapInterface.toTapWorker write t fuel c' s' lg

/-- One result of `unix.Read(t.fd, p)`: the count `n`, the error, and the bytes
the kernel stored at the start of `p`. -/
structure UnixRead where
  n : Nat
  err : Option Errno
  data : List Byte
deriving DecidableEq, Repr

/-- The state of a receive pump when it is observed: the frames sent to the
inbound channel in order, the logged errors, the backend results not yet
consumed. -/
structure ReadRun (ρ : Type) where
  pushed : List Frame
  logged : List Errno
  unread : List ρ
  status : PumpStatus
deriving DecidableEq, Repr

/-- Go `(t *tapInterface) fromTapWorker()`, run against the successive results of
the backend's reads; each iteration performs one read. When the results are
used up the pump waits in the next read. The send `t.readChannel <- p` is
recorded in `pushed`. -/
def tapInterface.fromTapWorker : List UnixRead → List Frame → List Errno → ReadRun UnixRead
  | [], out, lg => { pushed := out, logged := lg, unread := [], status := .waiting }
  | r :: rest, out, lg =>
    let p := copySlice (zeroBytes 1800) r.data
    match r.err with
    | some e => tapInterface.fromTapWorker rest out (lg ++ [e])
    | none =>
      match sliceTo p r.n with
      | none => { pushed := out, logged := lg, unread := rest, status := .panicked }
      | some p => tapInterface.fromTapWorker rest (out ++ [p]) lg

/-- Go `(t *tapInterface) Close() error`: `return unix.Close(t.fd)`. -/
def tapInterface.Close (t : tapInterface) (live : List Nat) :
    tapInterface × List Nat × Option Errno :=
  (t, unixClose live t.fd)

def tapInterface.GetName (t : tapInterface) : List Byte := t.name

def tapInterface.ReceiveChannel (t : tapInterface) : Chan := t.readChannel

def tapInterface.TransmitChannel (t : tapInterface) : Chan := t.writeChannel

def tapInterface.GetMTU (t : tapInterface) : Int := t.mtu

/-- Go `GetMACAddress`: `var a core.MacAddr; copy(a[:], t.macAddr[:])`. -/
def tapInterface.GetMACAddress (t : tapInterface) : List Byte :=
  copySlice MacAddr.zero t.macAddr

end Linux

/-! ## The driver-handle platform (adapter_windows.go) -/

namespace Windows

/-- A `windows.Handle` or `registry.Key` value. -/
abbrev Handle := Nat

/-- Constant `windows.InvalidHandle`, what `CreateFile` returns next to an error. -/
def InvalidHandle : Handle := 2 ^ 64 - 1

/-- Constant `windows.ERROR_IO_PENDING`. -/
def ERROR_IO_PENDING : Errno := 997

/-- Errno `EINVAL`, returned by `windows.UTF16PtrFromString` for a string with a NUL. -/
def EINVAL : Errno := 536870951

def fileDeviceUnknown : Nat := 0x00000022

def componentID : String := "tap0901"

/-- Go `ctlCode`, on `uint32`. -/
def ctlCode (deviceType function method access : Nat) : Nat :=
  ((deviceType <<< 16) ||| (access <<< 14) ||| (function <<< 2) ||| method) % 2 ^ 32

def ioctlGetMacAddress : Nat := ctlCode fileDeviceUnknown 1 0 0

def ioctlSetMediaStatus : Nat := ctlCode fileDeviceUnknown 6 0 0

/-- Go `net.Interface`, the fields that matter here. -/
structure NetInterface where
  Name : String
  MTU : Int
  HardwareAddr : List Byte
deriving DecidableEq, Repr

/-- An operating-system resource held by the process. -/
inductive Resource where
  /-- an open registry key -/
  | key (k : Handle)
  /-- an open kernel handle (event object or device file) -/
  | handle (h : Handle)
deriving DecidableEq, Repr

/-- The operating-system state the code acts on: the resources currently open,
the link-state control calls issued, the registry values written. -/
structure World where
  live : List Resource
  media : List (Handle × Bool)
  regWrites : List (Handle × String × String)
deriving DecidableEq, Repr

def World.acquire (w : World) (r : Resource) : World := { w with live := r :: w.live }

def World.release (w : World) (r : Resource) : World := { w with live := w.live.erase r }

/-- The operating-system calls of the driver-handle platform, as a mock backend. -/
structure Env where
  /-- Go `registry.OpenKey(registry.LOCAL_MACHINE, path, registry.READ)` -/
  OpenKey : String → Except Errno Handle
  /-- Go `k.ReadSubKeyNames(-1)` -/
  ReadSubKeyNames : Handle → Except Errno (List String)
  /-- Go `key.GetStringValue(name)` -/
  GetStringValue : Handle → String → Except Errno String
  /-- Go `windows.CreateEvent(nil, 1, 0, nil)`, by the number of the call -/
  CreateEvent : Nat → Except Errno Handle
  /-- Go `windows.CreateFile` on a device path -/
  CreateFile : String → Except Errno Handle
  /-- Go `windows.DeviceIoControl` with `ioctlSetMediaStatus` -/
  setMediaStatusIoctl : Handle → Bool → Option Errno
  /-- Go `windows.DeviceIoControl` with `ioctlGetMacAddress`: the six bytes stored -/
  getMacAddressIoctl : Handle → Except Errno (List Byte)
  /-- Go `net.Interfaces()` -/
  Interfaces : Except Errno (List NetInterface)

/-- Go `type tapAdapter struct`; `ro` and `wo` hold the `HEvent` of the two
`windows.Overlapped` values. -/
structure tapAdapter where
  name : String
  driverHandle : Handle
  receiveChannel : Chan
  sendChannel : Chan
  ro : Handle
  wo : Handle
  mtu : Int
  macAddr : List Byte
  originalMTU : String
  regKey : Handle
deriving DecidableEq, Repr

/-- The registry path of the network device class. -/
def regkey : String :=
  "SYSTEM\\CurrentControlSet\\Control\\Class\\\x7b4D36E972-E325-11CE-BFC1-08002BE10318\x7d"

/-- The `for _, v := range keys` loop of `getTAPAdapterRegistryKey`: the key
returned from inside the loop, or `none` when the loop runs to its end. -/
def getTAPAdapterRegistryKey_loop (env : Env) (componentID : String) :
    List String → World → Option Handle × World
  | [], w => (none, w)
  | v :: rest, w =>
    match env.OpenKey (regkey ++ "\\" ++ v) with
    | .error _ => getTAPAdapterRegistryKey_loop env componentID rest w
    | .ok key =>
      let w := w.acquire (.key key)
      match env.GetStringValue key "ComponentId" with
      | .error _ => getTAPAdapterRegistryKey_loop env componentID rest (w.release (.key key))
      | .ok val =>
        if val = componentID then (some key, w)
        else getTAPAdapterRegistryKey_loop env componentID rest (w.release (.key key))

/-- Go `getTAPAdapterRegistryKey(componentID string) (registry.Key, error)`;
`defer k.Close()` releases the class key on every return after it was opened. -/
def getTAPAdapterRegistryKey (env : Env) (componentID : String) (w : World) :
    Except Error Handle × World :=
  match env.OpenKey regkey with
  | .error e => (.error (.errno e), w)
  | .ok k =>
    let w := w.acquire (.key k)
    match env.ReadSubKeyNames k with
    | .error e => (.error (.errno e), w.release (.key k))
    | .ok keys =>
      match getTAPAdapterRegistryKey_loop env componentID keys w with
      | (some key, w) => (.ok key, w.release (.key k))
      | (none, w) => (.error .ErrAdapterNotFound, w.release (.key k))

/-- Go `getDeviceID(key registry.Key) (string, error)`. -/
def getDeviceID (env : Env) (key : Handle) : Except Error String :=
  match env.GetStringValue key "NetCfgInstanceId" with
  | .error e => .error (.errno e)
  | .ok val => .ok val

/-- Go `getMTU(key registry.Key) (string, error)`. -/
def getMTU (env : Env) (key : Handle) : Except Errno String :=
  env.GetStringValue key "MTU"

/-- Go `setMTU`: `key.SetStringValue("MTU", mtu)`, recorded in the world. -/
def setMTU (key : Handle) (mtu : String) (w : World) : World :=
  { w with regWrites := w.regWrites ++ [(key, "MTU", mtu)] }

/-- Go `createOverlapped()`: the `n`-th `CreateEvent` of the process. -/
def createOverlapped (env : Env) (n : Nat) (w : World) : Except Error Handle × World :=
  match env.CreateEvent n with
  | .error e => (.error (.errno e), w)
  | .ok h => (.ok h, w.acquire (.handle h))

/-- Go `setMediaStatus(h windows.Handle, connected bool) error`. -/
def setMediaStatus (env : Env) (h : Handle) (connected : Bool) (w : World) :
    Option Error × World :=
  let w := { w with media := w.media ++ [(h, connected)] }
  match env.setMediaStatusIoctl h connected with
  | none => (none, w)
  | some e => (some (.wrapped "adapter: DeviceIoControl ioctl SetMediaStatus failed with error" e), w)

/-- Go `getMacAddr(h windows.Handle) (*core.MacAddr, error)`: the control call
stores into a zeroed `core.MacAddr`. -/
def getMacAddr (env : Env) (h : Handle) : Except Error (List Byte) :=
  match env.getMacAddressIoctl h with
  | .ok bytes => .ok (copySlice MacAddr.zero bytes)
  | .error e => .error (.wrapped "adapter: DeviceIoControl ioctl GetMacAddress failed with error" e)

/-- Go `getAdapterName(addr *core.MacAddr) (string, error)`. -/
def getAdapterName (env : Env) (addr : List Byte) : Except Error String :=
  match env.Interfaces with
  | .error e => .error (.errno e)
  | .ok ifaces =>
    match ifaces.find? (fun i => decide (i.HardwareAddr = addr)) with
    | some i => .ok i.Name
    | none => .error .ErrInterfaceNameNotFound

/-- Go `windows.UTF16PtrFromString`: fails with `EINVAL` on a string holding a NUL. -/
def UTF16PtrFromString (s : String) : Except Error String :=
  if s.toList.contains (Char.ofNat 0) then .error (.errno EINVAL) else .ok s

/-- Go `(a *tapAdapter) Close() error`; `none` is the panic of closing a closed
channel. The results of `setMediaStatus`, `windows.Close`, `SetStringValue` and
`regKey.Close` are dropped, and `nil` is returned. -/
def tapAdapter.Close (env : Env) (a : tapAdapter) (w : World) :
    Option (tapAdapter × World × Option Error) :=
  match a.sendChannel.close with
  | none => none
  | some ch =>
    let a := { a with sendChannel := ch }
    let w :=
      if a.driverHandle ≠ 0 then
        ((setMediaStatus env a.driverHandle false w).2).release (.handle a.driverHandle)
      else w
    let w :=
      if a.regKey ≠ 0 then
        (if a.originalMTU ≠ "" then setMTU a.regKey a.originalMTU w else w).release (.key a.regKey)
      else w
    some (a, w, none)

/-- The failure exit `instance.Close(); return nil, err` of `newTAP`. -/
def newTAP_fail (env : Env) (a : tapAdapter) (w : World) (err : Error) :
    Option (Except Error tapAdapter × World) :=
  match tapAdapter.Close env a w with
  | none => none
  | some (_, w, _) => some (.error err, w)

/-- Go `newTAP(name string, mtu, queueSize int) (Instance, error)`; `none` is a
panic. The two `go` statements start `readWorker` and `writeWorker`, which are
modelled apart. -/
def newTAP (env : Env) (name : String) (mtu : Int) (queueSize : Nat) (w : World) :
    Option (Except Error tapAdapter × World) :=
  match getTAPAdapterRegistryKey env componentID w with
  | (.error err, w) => some (.error err, w)
  | (.ok key, w) =>
    match getDeviceID env key with
    | .error err => some (.error err, w)
    | .ok deviceID =>
      match createOverlapped env 0 w with
      | (.error err, w) => some (.error err, w)
      | (.ok wo, w) =>
        match createOverlapped env 1 w with
        | (.error err, w) => some (.error err, w.release (.handle wo))
        | (.ok ro, w) =>
          let a : tapAdapter :=
            { name := "", driverHandle := 0, receiveChannel := makeChan queueSize,
              sendChannel := makeChan queueSize, ro := ro, wo := wo, mtu := 0,
              macAddr := MacAddr.zero, originalMTU := "", regKey := key }
          match UTF16PtrFromString ("\\\\.\\Global\\" ++ deviceID ++ ".tap") with
          | .error err => newTAP_fail env a w err
          | .ok path =>
            match env.CreateFile path with
            | .error e => newTAP_fail env { a with driverHandle := InvalidHandle } w (.errno e)
            | .ok h =>
              let a := { a with driverHandle := h }
              let w := w.acquire (.handle h)
              match setMediaStatus env a.driverHandle true w with
              | (some err, w) => newTAP_fail env a w err
              | (none, w) =>
                match getMacAddr env a.driverHandle with
                | .error err => newTAP_fail env a w err
                | .ok macAddr =>
                  let a := { a with macAddr := copySlice a.macAddr macAddr }
                  match getAdapterName env macAddr with
                  | .error err => newTAP_fail env { a with name := "" } w err
                  | .ok nm => some (.ok { a with name := nm }, w)

/-- One round of the backend's answers to `readPacket`: the error of
`windows.ReadFile`, the `r1` and error of the `GetOverlappedResult` system call,
the transferred count left in `done`, and the bytes the driver stored in `buf`. -/
structure DriverRead where
  readFileErr : Option Errno
  r1 : Nat
  waitErr : Errno
  done : Nat
  data : List Byte
deriving DecidableEq, Repr

/-- Go `GetOverlappedResult(...) error` given what the system call returned:
`if r1&1 == 0 { return err }; return nil`. -/
def GetOverlappedResult (r1 : Nat) (err : Errno) : Option Errno :=
  if r1 &&& 1 = 0 then some err else none

/-- Go `(a *tapAdapter) readPacket() ([]byte, error)` on one round of answers;
`none` is the panic of `buf[:done]` out of range. -/
def tapAdapter.readPacket (r : DriverRead) : Option (Except Errno Frame) :=
  let buf := copySlice (zeroBytes 1800) r.data
  match r.readFileErr with
  | some e =>
    if e ≠ ERROR_IO_PENDING then some (.error e)
    else
      match GetOverlappedResult r.r1 r.waitErr with
      | some e => some (.error e)
      | none => (sliceTo buf r.done).map .ok
  | none =>
    match GetOverlappedResult r.r1 r.waitErr with
    | some e => some (.error e)
    | none => (sliceTo buf r.done).map .ok

/-- Go `(a *tapAdapter) readWorker()`, run against the successive rounds of
backend answers; each iteration is one `readPacket`. The send
`a.receiveChannel <- pkt` is recorded in `pushed`. -/
def tapAdapter.readWorker : List DriverRead → List Frame → List Errno →
    Linux.ReadRun DriverRead
  | [], out, lg => { pushed := out, logged := lg, unread := [], status := .waiting }
  | r :: rest, out, lg =>
    match tapAdapter.readPacket r with
    | none => { pushed := out, logged := lg, unread := rest, status := .panicked }
    | some (.error e) =>
      { pushed := out, logged := lg ++ [e], unread := rest, status := .terminated }
    | some (.ok pkt) => tapAdapter.readWorker rest (out ++ [pkt]) lg

/-- The device side of a write: `windows.WriteFile` and the `GetOverlappedResult`
system call, on a device state `σ`. -/
structure WriteDevice (σ : Type) where
  WriteFile : σ → Handle → Frame → σ × Option Errno
  overlappedResult : σ → Handle → σ × Nat × Errno

/-- Go `(a *tapAdapter) writePacket(p []byte) error`. -/
def tapAdapter.writePacket {σ : Type} (d : WriteDevice σ) (a : tapAdapter) (s : σ)
    (p : Frame) : σ × Option Errno :=
  match d.WriteFile s a.driverHandle p with
  | (s, some e) =>
    if e ≠ ERROR_IO_PENDING then (s, some e)
    else
      match d.overlappedResult s a.driverHandle with
      | (s, r1, err) => (s, GetOverlappedResult r1 err)
  | (s, none) =>
    match d.overlappedResult s a.driverHandle with
    | (s, r1, err) => (s, GetOverlappedResult r1 err)

/-- Go `(a *tapAdapter) writeWorker()`. -/
def tapAdapter.writeWorker {σ : Type} (d : WriteDevice σ) (a : tapAdapter) :
    Nat → Chan → σ → List Errno → Linux.WriteRun σ
  | 0, c, s, lg => { dev := s, chan := c, logged := lg, status := .running }
  | fuel + 1, c, s, lg =>
    match c.recv with
    | .drained => { dev := s, chan := c, logged := lg, status := .terminated }
    | .blocks => { dev := s, chan := c, logged := lg, status := .waiting }
    | .value pkt c' =>
      match tapAdapter.writePacket d a s pkt with
      | (s', some e) => tapAdapter.writeWorker d a fuel c' s' (lg ++ [e])
      | (s', none) => tapAdapter.writeWorker d a fuel c' s' lg

def tapAdapter.TransmitChannel (a : tapAdapter) : Chan := a.sendChannel

def tapAdapter.ReceiveChannel (a : tapAdapter) : Chan := a.receiveChannel

def tapAdapter.GetName (a : tapAdapter) : String := a.name

def tapAdapter.GetMTU (a : tapAdapter) : Int := a.mtu

/-- Go `GetMACAddress`: `var m core.MacAddr; copy(m[:], a.macAddr[:])`. -/
def tapAdapter.GetMACAddress (a : tapAdapter) : List Byte :=
  copySlice MacAddr.zero a.macAddr

end Windows

/-! ## Specification-side helpers -/

/-- The key of a configuration entry that opens and whose `ComponentId` value
equals `target`; `none` for an entry that fails to open, lacks the value or
carries another one. -/
def matchingKey (env : Windows.Env) (target : String) (v : String) : Option Windows.Handle :=
  match env.OpenKey (Windows.regkey ++ "\\" ++ v) with
  | .error _ => none
  | .ok key =>
    match env.GetStringValue key "ComponentId" with
    | .error _ => none
    | .ok val => if val = target then some key else none

/-- A mock driver-handle backend. The class key is handle 1; of its entries
`0000` (handle 10) carries another component, `0001` (handle 11) and `0002`
(handle 12) carry `tap0901`. The driver file is handle 30, the events are 20
and 21, the driver reports the address `00:ff:01:02:03:04`, and the interface
with that address is `Ethernet 2` with MTU 1500. -/
def registryTwoMatches : Windows.Env where
  OpenKey := fun path =>
    if path = Windows.regkey then .ok 1
    else if path = Windows.regkey ++ "\\0000" then .ok 10
    else if path = Windows.regkey ++ "\\0001" then .ok 11
    else if path = Windows.regkey ++ "\\0002" then .ok 12
    else .error 2
  ReadSubKeyNames := fun _ => .ok ["0000", "0001", "0002", "Properties"]
  GetStringValue := fun k name =>
    if name = "ComponentId" then (if k = 10 then .ok "pci" else .ok "tap0901")
    else if name = "NetCfgInstanceId" then .ok "A1B2"
    else if name = "MTU" then .ok "1500"
    else .error 2
  CreateEvent := fun n => .ok (20 + n)
  CreateFile := fun _ => .ok 30
  setMediaStatusIoctl := fun _ _ => none
  getMacAddressIoctl := fun _ => .ok [0, 255, 1, 2, 3, 4]
  Interfaces := .ok [{ Name := "Ethernet 2", MTU := 1500, HardwareAddr := [0, 255, 1, 2, 3, 4] }]

/-- The same backend with a matching entry that has no `NetCfgInstanceId` value. -/
def registryNoInstanceId : Windows.Env :=
  { registryTwoMatches with
    GetStringValue := fun k name =>
      if name = "ComponentId" then (if k = 10 then .ok "pci" else .ok "tap0901")
      else .error 2 }

/-- The same backend with no interface carrying the driver's address. -/
def registryNoInterface : Windows.Env :=
  { registryTwoMatches with Interfaces := .ok [] }

/-- A world with nothing open. -/
def emptyWorld : Windows.World := { live := [], media := [], regWrites := [] }

/-- The instance `newTAP` builds on `registryTwoMatches` with queue size 4. -/
def openAdapter : Windows.tapAdapter :=
  { name := "Ethernet 2", driverHandle := 30, receiveChannel := makeChan 4,
    sendChannel := makeChan 4, ro := 21, wo := 20, mtu := 0,
    macAddr := [0, 255, 1, 2, 3, 4], originalMTU := "", regKey := 11 }

/-- The world after that construction. -/
def openWorld : Windows.World :=
  { live := [.handle 30, .handle 21, .handle 20, .key 11], media := [(30, true)],
    regWrites := [] }

/-- The adapter `openAdapter` after one `Close`. -/
def closedAdapter : Windows.tapAdapter :=
  { openAdapter with sendChannel := { buf := [], cap := 4, closed := true } }

/-- The world after that `Close`. -/
def closedWorld : Windows.World :=
  { live := [.handle 21, .handle 20], media := [(30, true), (30, false)], regWrites := [] }

/-- The interface name `tap0`. -/
def tap0 : List Byte := [116, 97, 112, 48]

/-- A mock character-device backend: the descriptor is 3, the kernel names the
interface `tap0` whatever was requested, and that interface has MTU 1500 and
the address `02:00:00:00:00:01`. -/
def mockTun : Linux.Env where
  openTun := .ok 3
  tunSetIff := fun _ _ => .ok (tap0 ++ zeroBytes 12)
  InterfaceByName := fun n =>
    if n = tap0 then .ok { Name := tap0, MTU := 1500, HardwareAddr := [2, 0, 0, 0, 0, 1] }
    else .error 19

/-- The instance `newTAP` builds on `mockTun` with queue size 4. -/
def openInterface : Linux.tapInterface :=
  { fd := 3, mtu := 1500, name := tap0, macAddr := [2, 0, 0, 0, 0, 1],
    writeChannel := makeChan 4, readChannel := makeChan 4 }

/-- A name of fifteen bytes, `abcdefghijklmno`. -/
def name15 : List Byte :=
  [97, 98, 99, 100, 101, 102, 103, 104, 105, 106, 107, 108, 109, 110, 111]

/-- Whether a round of backend answers makes `readPacket` return a frame. -/
def readSucceeds (r : Windows.DriverRead) : Bool :=
  match Windows.tapAdapter.readPacket r with
  | some (.ok _) => true
  | _ => false

/-- The frame a successful `unix.Read` leaves in `p[:n]`: the first `n` bytes of
the 1800-byte buffer the kernel stored `data` into. -/
def frameOfRead (r : Linux.UnixRead) : Option Frame :=
  match r.err with
  | some _ => none
  | none => some ((copySlice (zeroBytes 1800) r.data).take r.n)

/-- A mock character device that records every `unix.Write` call (descriptor
and frame) and answers the call number `i` with `outcome i`. -/
def recordingWrite (outcome : Nat → Option Errno) :
    List (Nat × Frame) → Nat → Frame → List (Nat × Frame) × Option Errno :=
  fun s fd p => (s ++ [(fd, p)], outcome s.length)

/-- A mock driver that records every `WriteFile` call (handle and frame),
answers the call number `i` with `submit i`, and answers the wait for its
completion with `wait i`. -/
def recordingDevice (submit : Nat → Option Errno) (wait : Nat → Nat × Errno) :
    Windows.WriteDevice (List (Windows.Handle × Frame)) where
  WriteFile := fun s h p => (s ++ [(h, p)], submit s.length)
  overlappedResult := fun s _ => (s, wait (s.length - 1))

/-- The bytes of `s` before its first zero byte. -/
def untilZero : List Byte → List Byte
  | [] => []
  | b :: t => if b = 0 then [] else b :: untilZero t

/-! # Theorems -/

theorem untilZero_isInitial (s : List Byte) : untilZero s <+: s := by
  induction s with
  | nil => simp [untilZero]
  | cons a t ih =>
    by_cases h : a = 0
    · simp [untilZero, h]
    · simpa [untilZero, h, List.cons_prefix_cons] using ih

theorem take_length_untilZero (s : List Byte) :
    s.take (untilZero s).length = untilZero s := by
  induction s with
  | nil => simp [untilZero]
  | cons a t ih =>
    by_cases h : a = 0
    · simp [untilZero, h]
    · simp [untilZero, h, ih]

theorem parseNameLoop_eq (s : List Byte) (fuel i : Nat) (h : s.length - i < fuel) :
    parseNameLoop s fuel i = some (i + (untilZero (s.drop i)).length) := by
  induction fuel generalizing i with
  | zero => omega
  | succ n ih =>
    unfold parseNameLoop
    by_cases hi : i < s.length
    · have hd : s.drop i = s[i] :: s.drop (i + 1) := (List.getElem_cons_drop _ _ hi).symm
      simp only [hi, if_true, List.getElem?_eq_getElem]
      by_cases hz : s[i] = 0
      · simp [hz, hd, untilZero]
      · rw [if_neg hz, ih (i + 1) (by omega), hd]
        simp only [untilZero, hz, if_false, List.length_cons]
        congr 1
        omega
    · have hd : s.drop i = [] := List.drop_eq_nil_of_le (by omega)
      simp [hi, hd, untilZero]

theorem parseName_eq (s : List Byte) : parseName s = some (untilZero s) := by
  have h := parseNameLoop_eq s (s.length + 1) 0 (by omega)
  simp only [List.drop_zero, Nat.zero_add] at h
  have hl : (untilZero s).length ≤ s.length := (untilZero_isInitial s).length_le
  simp [parseName, h, sliceTo, hl, take_length_untilZero]

theorem zero_not_mem_untilZero (s : List Byte) : (0 : Byte) ∉ untilZero s := by
  induction s with
  | nil => simp [untilZero]
  | cons a t ih =>
    by_cases h : a = 0
    · simp [untilZero, h]
    · simp [untilZero, h, ih, Ne.symm h]

theorem untilZero_next (s : List Byte) :
    untilZero s = s ∨ s[(untilZero s).length]? = some 0 := by
  induction s with
  | nil => simp [untilZero]
  | cons a t ih =>
    by_cases h : a = 0
    · right; simp [untilZero, h]
    · rcases ih with ih | ih
      · left; simp [untilZero, h, ih]
      · right; simp [untilZero, h, ih]

theorem untilZero_longest (s q : List Byte) (hq : q <+: s) (h0 : (0 : Byte) ∉ q) :
    q.length ≤ (untilZero s).length := by
  induction s generalizing q with
  | nil => simp [List.prefix_nil.mp hq]
  | cons a t ih =>
    cases q with
    | nil => simp
    | cons b q' =>
      obtain ⟨rfl, hq'⟩ := List.cons_prefix_cons.mp hq
      have hb : b ≠ 0 := fun hb => h0 (by simp [hb])
      have := ih q' hq' (fun hm => h0 (List.mem_cons_of_mem _ hm))
      simp [untilZero, hb, this]

/-- C10: for every byte sequence `s`, `parseName s` returns (it never indexes
out of range) the longest prefix of `s` without a zero byte: a prefix of `s`,
free of zero bytes, equal to `s` or followed in `s` by a zero byte, at least as
long as every zero-free prefix; and `parseName` of the empty sequence is the
empty string. -/
theorem parseName_longest_zero_free_prefix (s : List Byte) :
    (∃ r, parseName s = some r ∧ r <+: s ∧ (0 : Byte) ∉ r ∧
      (r = s ∨ s[r.length]? = some 0) ∧
      (∀ q : List Byte, q <+: s → (0 : Byte) ∉ q → q.length ≤ r.length)) ∧
    parseName [] = some [] :=
  ⟨⟨untilZero s, parseName_eq s, untilZero_isInitial s, zero_not_mem_untilZero s,
    untilZero_next s, fun q hq h0 => untilZero_longest s q hq h0⟩, by decide⟩

/-! ## The transmit pumps -/

theorem toTapWorker_drains (outcome : Nat → Option Errno) (t : Linux.tapInterface)
    (cap : Nat) (frames : List Frame) :
    ∀ (fuel : Nat) (s : List (Nat × Frame)) (lg : List Errno), frames.length < fuel →
      (t.toTapWorker (recordingWrite outcome) fuel
          { buf := frames, cap := cap, closed := true } s lg).dev
        = s ++ frames.map (fun p => (t.fd, p)) ∧
      (t.toTapWorker (recordingWrite outcome) fuel
          { buf := frames, cap := cap, closed := true } s lg).status = .terminated ∧
      (t.toTapWorker (recordingWrite outcome) fuel
          { buf := frames, cap := cap, closed := true } s lg).chan.buf = [] := by
  induction frames with
  | nil =>
    intro fuel s lg h
    cases fuel with
    | zero => simp at h
    | succ n => simp [Linux.tapInterface.toTapWorker, Chan.recv]
  | cons p rest ih =>
    intro fuel s lg h
    cases fuel with
    | zero => simp at h
    | succ n =>
      have hn : rest.length < n := by simpa using h
      simp only [Linux.tapInterface.toTapWorker, Chan.recv, recordingWrite]
      cases outcome s.length with
      | none => simpa using ih n (s ++ [(t.fd, p)]) lg hn
      | some e => simpa using ih n (s ++ [(t.fd, p)]) (lg ++ [e]) hn

theorem writePacket_records (submit : Nat → Option Errno) (wait : Nat → Nat × Errno)
    (a : Windows.tapAdapter) (s : List (Windows.Handle × Frame)) (p : Frame) :
    (Windows.tapAdapter.writePacket (recordingDevice submit wait) a s p).1
      = s ++ [(a.driverHandle, p)] := by
  simp only [Windows.tapAdapter.writePacket, recordingDevice]
  cases submit s.length with
  | none => rfl
  | some e => by_cases he : e = Windows.ERROR_IO_PENDING <;> simp [he]

theorem writeWorker_drains (submit : Nat → Option Errno) (wait : Nat → Nat × Errno)
    (a : Windows.tapAdapter) (cap : Nat) (frames : List Frame) :
    ∀ (fuel : Nat) (s : List (Windows.Handle × Frame)) (lg : List Errno),
      frames.length < fuel →
      (a.writeWorker (recordingDevice submit wait) fuel
          { buf := frames, cap := cap, closed := true } s lg).dev
        = s ++ frames.map (fun p => (a.driverHandle, p)) ∧
      (a.writeWorker (recordingDevice submit wait) fuel
          { buf := frames, cap := cap, closed := true } s lg).status = .terminated ∧
      (a.writeWorker (recordingDevice submit wait) fuel
          { buf := frames, cap := cap, closed := true } s lg).chan.buf = [] := by
  induction frames with
  | nil =>
    intro fuel s lg h
    cases fuel with
    | zero => simp at h
    | succ n => simp [Windows.tapAdapter.writeWorker, Chan.recv]
  | cons p rest ih =>
    intro fuel s lg h
    cases fuel with
    | zero => simp at h
    | succ n =>
      have hn : rest.length < n := by simpa using h
      have hw := writePacket_records submit wait a s p
      simp only [Windows.tapAdapter.writeWorker, Chan.recv]
      rcases hr : Windows.tapAdapter.writePacket (recordingDevice submit wait) a s p with
        ⟨s1, e⟩
      rw [hr] at hw
      simp only at hw
      subst hw
      cases e with
      | none => simpa using ih n (s ++ [(a.driverHandle, p)]) lg hn
      | some e => simpa using ih n (s ++ [(a.driverHandle, p)]) (lg ++ [e]) hn

/-- C3: for every finite sequence of frames on the outbound queue which is
then closed, and every assignment of success or failure to the backend's
writes, `toTapWorker` and `writeWorker` run to termination, the queue is
drained, and the backend has received exactly one write call per frame, the
`i`-th carrying the `i`-th frame, whatever writes failed. -/
theorem transmit_pump_writes_every_frame_in_order (frames : List Frame) (cap extra : Nat)
    (t : Linux.tapInterface) (outcome : Nat → Option Errno)
    (a : Windows.tapAdapter) (submit : Nat → Option Errno) (wait : Nat → Nat × Errno) :
    ((t.toTapWorker (recordingWrite outcome) (frames.length + 1 + extra)
          { buf := frames, cap := cap, closed := true } [] []).dev
        = frames.map (fun p => (t.fd, p)) ∧
      (t.toTapWorker (recordingWrite outcome) (frames.length + 1 + extra)
          { buf := frames, cap := cap, closed := true } [] []).status = .terminated ∧
      (t.toTapWorker (recordingWrite outcome) (frames.length + 1 + extra)
          { buf := frames, cap := cap, closed := true } [] []).chan.buf = []) ∧
    ((a.writeWorker (recordingDevice submit wait) (frames.length + 1 + extra)
          { buf := frames, cap := cap, closed := true } [] []).dev
        = frames.map (fun p => (a.driverHandle, p)) ∧
      (a.writeWorker (recordingDevice submit wait) (frames.length + 1 + extra)
          { buf := frames, cap := cap, closed := true } [] []).status = .terminated ∧
      (a.writeWorker (recordingDevice submit wait) (frames.length + 1 + extra)
          { buf := frames, cap := cap, closed := true } [] []).chan.buf = []) := by
  have h1 := toTapWorker_drains outcome t cap frames (frames.length + 1 + extra) [] []
    (by omega)
  have h2 := writeWorker_drains submit wait a cap frames (frames.length + 1 + extra) [] []
    (by omega)
  simpa using And.intro h1 h2

/-! ## Slices -/

theorem copySlice_length (dst src : List Byte) : (copySlice dst src).length = dst.length := by
  simp only [copySlice, List.length_append, List.length_take, List.length_drop]
  omega

theorem zeroBytes_length (n : Nat) : (zeroBytes n).length = n := by
  simp [zeroBytes]

theorem copySlice_zero_length (n : Nat) (src : List Byte) :
    (copySlice (zeroBytes n) src).length = n := by
  rw [copySlice_length, zeroBytes_length]

/-! ## The receive pumps -/

theorem readWorker_run (rs : List Windows.DriverRead) :
    ∀ (out : List Frame) (lg : List Errno),
      (Windows.tapAdapter.readWorker rs out lg).pushed.map (fun p => some (Except.ok p))
        = out.map (fun p => some (Except.ok p))
          ++ (rs.takeWhile readSucceeds).map Windows.tapAdapter.readPacket ∧
      (Windows.tapAdapter.readWorker rs out lg).unread
        = rs.drop ((rs.takeWhile readSucceeds).length + 1) ∧
      (match rs.find? (fun r => !readSucceeds r) with
        | none => (Windows.tapAdapter.readWorker rs out lg).status = .waiting
        | some r =>
          (Windows.tapAdapter.readPacket r = none ∧
            (Windows.tapAdapter.readWorker rs out lg).status = .panicked) ∨
          (∃ e, Windows.tapAdapter.readPacket r = some (.error e) ∧
            (Windows.tapAdapter.readWorker rs out lg).status = .terminated)) := by
  induction rs with
  | nil => intro out lg; simp [Windows.tapAdapter.readWorker]
  | cons r rest ih =>
    intro out lg
    rcases hr : Windows.tapAdapter.readPacket r with _ | (e | pkt)
    · simp [Windows.tapAdapter.readWorker, hr, readSucceeds]
    · simp [Windows.tapAdapter.readWorker, hr, readSucceeds]
    · have h := ih (out ++ [pkt]) lg
      simp only [Windows.tapAdapter.readWorker, hr, readSucceeds, List.takeWhile_cons,
        List.find?_cons]
      simpa [hr] using h

/-- C4: for every sequence of answers the backend gives to `readPacket`, the
frames `readWorker` pushes onto the inbound queue are exactly the successful
results before the first read that does not succeed, in order; the reads after
that one are never issued; the pump has returned when that read failed with an
error, and waits in a read when every answer was a success. -/
theorem readWorker_stops_at_first_failure (rs : List Windows.DriverRead) :
    (Windows.tapAdapter.readWorker rs [] []).pushed.map (fun p => some (Except.ok p))
      = (rs.takeWhile readSucceeds).map Windows.tapAdapter.readPacket ∧
    (Windows.tapAdapter.readWorker rs [] []).unread
      = rs.drop ((rs.takeWhile readSucceeds).length + 1) ∧
    (match rs.find? (fun r => !readSucceeds r) with
      | none => (Windows.tapAdapter.readWorker rs [] []).status = .waiting
      | some r =>
        (Windows.tapAdapter.readPacket r = none ∧
          (Windows.tapAdapter.readWorker rs [] []).status = .panicked) ∨
        (∃ e, Windows.tapAdapter.readPacket r = some (.error e) ∧
          (Windows.tapAdapter.readWorker rs [] []).status = .terminated)) := by
  simpa using readWorker_run rs [] []

theorem fromTapWorker_run (rs : List Linux.UnixRead)
    (h : ∀ r ∈ rs, r.err = none → r.n ≤ 1800) :
    ∀ (out : List Frame) (lg : List Errno),
      (Linux.tapInterface.fromTapWorker rs out lg).pushed = out ++ rs.filterMap frameOfRead ∧
      (Linux.tapInterface.fromTapWorker rs out lg).logged
        = lg ++ rs.filterMap (fun r => r.err) ∧
      (Linux.tapInterface.fromTapWorker rs out lg).unread = [] ∧
      (Linux.tapInterface.fromTapWorker rs out lg).status = .waiting := by
  induction rs with
  | nil => intro out lg; simp [Linux.tapInterface.fromTapWorker]
  | cons r rest ih =>
    intro out lg
    have hrest : ∀ x ∈ rest, x.err = none → x.n ≤ 1800 :=
      fun x hx => h x (List.mem_cons_of_mem _ hx)
    cases he : r.err with
    | some e =>
      have := ih hrest out (lg ++ [e])
      simpa [Linux.tapInterface.fromTapWorker, he, frameOfRead] using this
    | none =>
      have hn : r.n ≤ 1800 := h r (List.mem_cons_self _ _) he
      have hlen : (copySlice (zeroBytes 1800) r.data).length = 1800 :=
        copySlice_zero_length 1800 r.data
      have := ih hrest (out ++ [(copySlice (zeroBytes 1800) r.data).take r.n]) lg
      simpa [Linux.tapInterface.fromTapWorker, he, frameOfRead, sliceTo, hlen, hn] using this

theorem frameOfRead_length (r : Linux.UnixRead) (p : Frame) (hn : r.n ≤ 1800)
    (hp : frameOfRead r = some p) : p.length = r.n := by
  unfold frameOfRead at hp
  cases he : r.err with
  | some e => simp [he] at hp
  | none =>
    simp only [he, Option.some.injEq] at hp
    subst hp
    rw [List.length_take, copySlice_zero_length]
    omega

/-- C5: for every finite sequence of read results in which each successful
read reports a count of at most 1800, the frames `fromTapWorker` pushes onto
the inbound queue are exactly the successful reads, in the backend's order,
each cut to its reported length; a failed read is logged, pushes nothing and
does not stop the pump, which consumes every result and then waits in the
next read. -/
theorem fromTapWorker_pushes_successful_reads (rs : List Linux.UnixRead)
    (h : ∀ r ∈ rs, r.err = none → r.n ≤ 1800) :
    (Linux.tapInterface.fromTapWorker rs [] []).pushed = rs.filterMap frameOfRead ∧
    (Linux.tapInterface.fromTapWorker rs [] []).logged = rs.filterMap (fun r => r.err) ∧
    (Linux.tapInterface.fromTapWorker rs [] []).unread = [] ∧
    (Linux.tapInterface.fromTapWorker rs [] []).status = .waiting ∧
    (∀ r ∈ rs, ∀ p, frameOfRead r = some p → p.length = r.n) := by
  have h1 := fromTapWorker_run rs h [] []
  refine ⟨by simpa using h1.1, by simpa using h1.2.1, h1.2.2.1, h1.2.2.2, ?_⟩
  intro r hr p hp
  have he : r.err = none := by
    cases he : r.err with
    | none => rfl
    | some e => simp [frameOfRead, he] at hp
  exact frameOfRead_length r p (h r hr he) hp

/-- Witness of C5: two successful reads around a failed one. -/
theorem fromTapWorker_pushes_successful_reads_witness :
    (Linux.tapInterface.fromTapWorker
      [{ n := 2, err := none, data := [1, 2] }, { n := 0, err := some 5, data := [] },
        { n := 1, err := none, data := [7, 9] }] [] []).pushed
      = [{ n := 2, err := none, data := [1, 2] }, { n := 0, err := some 5, data := [] },
        { n := 1, err := none, data := [7, 9] }].filterMap frameOfRead :=
  (fromTapWorker_pushes_successful_reads
    [{ n := 2, err := none, data := [1, 2] }, { n := 0, err := some 5, data := [] },
      { n := 1, err := none, data := [7, 9] }] (by decide)).1

/-! ## Discovery -/

theorem getTAPAdapterRegistryKey_loop_eq (env : Windows.Env) (target : String)
    (keys : List String) :
    ∀ w : Windows.World,
      (Windows.getTAPAdapterRegistryKey_loop env target keys w).1
        = keys.findSome? (matchingKey env target) := by
  induction keys with
  | nil => intro w; simp [Windows.getTAPAdapterRegistryKey_loop]
  | cons v rest ih =>
    intro w
    unfold Windows.getTAPAdapterRegistryKey_loop
    simp only [List.findSome?_cons, matchingKey]
    cases env.OpenKey (Windows.regkey ++ "\\" ++ v) with
    | error e => simpa using ih w
    | ok key =>
      cases hg : env.GetStringValue key "ComponentId" with
      | error e => simpa [hg] using ih _
      | ok val =>
        by_cases hv : val = target
        · simp [hg, hv]
        · simpa [hg, hv] using ih _

theorem getTAPAdapterRegistryKey_eq (env : Windows.Env) (target : String)
    (w : Windows.World) (k : Windows.Handle) (keys : List String)
    (hk : env.OpenKey Windows.regkey = .ok k) (hs : env.ReadSubKeyNames k = .ok keys) :
    (Windows.getTAPAdapterRegistryKey env target w).1
      = match keys.findSome? (matchingKey env target) with
        | some key => .ok key
        | none => .error .ErrAdapterNotFound := by
  have hl := getTAPAdapterRegistryKey_loop_eq env target keys (w.acquire (.key k))
  simp only [Windows.getTAPAdapterRegistryKey, hk, hs]
  rcases hr : Windows.getTAPAdapterRegistryKey_loop env target keys (w.acquire (.key k)) with
    ⟨r, w1⟩
  rw [hr] at hl
  simp only at hl
  rw [← hl]
  cases r <;> rfl

/-- C6: when the class key opens as `k` and its subkeys enumerate as `keys`,
`getTAPAdapterRegistryKey` returns the opened key of the first entry, in
enumeration order, that opens and whose `ComponentId` equals the target, and
`ErrAdapterNotFound` when there is none; and over all registries it returns
`ErrAdapterNotFound` if and only if the enumeration succeeds and no entry opens
with a `ComponentId` equal to the target. -/
theorem getTAPAdapterRegistryKey_first_match (env : Windows.Env) (target : String)
    (w : Windows.World) :
    (∀ k keys, env.OpenKey Windows.regkey = .ok k → env.ReadSubKeyNames k = .ok keys →
      (Windows.getTAPAdapterRegistryKey env target w).1
        = match keys.findSome? (matchingKey env target) with
          | some key => .ok key
          | none => .error .ErrAdapterNotFound) ∧
    ((Windows.getTAPAdapterRegistryKey env target w).1 = .error .ErrAdapterNotFound ↔
      ∃ k keys, env.OpenKey Windows.regkey = .ok k ∧ env.ReadSubKeyNames k = .ok keys ∧
        ∀ v ∈ keys, matchingKey env target v = none) := by
  refine ⟨fun k keys hk hs => getTAPAdapterRegistryKey_eq env target w k keys hk hs, ?_⟩
  constructor
  · intro h
    cases hk : env.OpenKey Windows.regkey with
    | error e => simp [Windows.getTAPAdapterRegistryKey, hk] at h
    | ok k =>
      cases hs : env.ReadSubKeyNames k with
      | error e => simp [Windows.getTAPAdapterRegistryKey, hk, hs] at h
      | ok keys =>
        refine ⟨k, keys, rfl, hs, ?_⟩
        rw [getTAPAdapterRegistryKey_eq env target w k keys hk hs] at h
        cases hf : keys.findSome? (matchingKey env target) with
        | none => exact List.findSome?_eq_none_iff.mp hf
        | some key => simp [hf] at h
  · rintro ⟨k, keys, hk, hs, hnone⟩
    rw [getTAPAdapterRegistryKey_eq env target w k keys hk hs,
      List.findSome?_eq_none_iff.mpr hnone]

/-- Witness of C6: of two entries carrying the target id, the first one
enumerated is returned. -/
theorem getTAPAdapterRegistryKey_first_match_witness :
    (Windows.getTAPAdapterRegistryKey registryTwoMatches "tap0901"
        { live := [], media := [], regWrites := [] }).1 = .ok 11 :=
  ((getTAPAdapterRegistryKey_first_match registryTwoMatches "tap0901"
      { live := [], media := [], regWrites := [] }).1 1
    ["0000", "0001", "0002", "Properties"] (by decide) (by decide)).trans (by decide)

/-! ## Close -/

/-- C1, counterexample: on the driver-handle platform the instance built on
`registryTwoMatches` is closed once without error and a second `Close`
panics; on the character-device platform the first `Close` of descriptor 3
returns no error and the second returns `EBADF`. -/
theorem close_twice_counterexample :
    Windows.newTAP registryTwoMatches "" 9000 4 emptyWorld
      = some (.ok openAdapter, openWorld) ∧
    Windows.tapAdapter.Close registryTwoMatches openAdapter openWorld
      = some (closedAdapter, closedWorld, none) ∧
    Windows.tapAdapter.Close registryTwoMatches closedAdapter closedWorld = none ∧
    Linux.newTAP mockTun [] 9000 4 [] = some (.ok openInterface, [3]) ∧
    Linux.tapInterface.Close openInterface [3] = (openInterface, [], none) ∧
    Linux.tapInterface.Close openInterface [] = (openInterface, [], some Linux.EBADF) := by
  decide

theorem unixClose_open (live : List Nat) (fd : Nat) (h : fd ∈ live) :
    Linux.unixClose live fd = (live.erase fd, none) := by
  simp [Linux.unixClose, h]

theorem unixClose_not_open (live : List Nat) (fd : Nat) (h : fd ∉ live) :
    Linux.unixClose live fd = (live, some Linux.EBADF) := by
  simp [Linux.unixClose, h]

theorem tapAdapter_Close_open (env : Windows.Env) (a : Windows.tapAdapter)
    (w : Windows.World) (h : a.sendChannel.closed = false) :
    ∃ w1, Windows.tapAdapter.Close env a w
      = some ({ a with sendChannel := { a.sendChannel with closed := true } }, w1, none) := by
  simp [Windows.tapAdapter.Close, Chan.close, h]

theorem tapAdapter_Close_closed (env : Windows.Env) (a : Windows.tapAdapter)
    (w : Windows.World) (h : a.sendChannel.closed = true) :
    Windows.tapAdapter.Close env a w = none := by
  simp [Windows.tapAdapter.Close, Chan.close, h]

/-- C1, amended: on the driver-handle platform the first `Close` of an
instance whose outbound queue is open returns no error and changes nothing of
the instance but the queue, which it closes, and a second `Close` panics; on
the character-device platform `Close` never changes the instance, the first
`Close` of an open descriptor releases it and returns no error, and a second
`Close` returns `EBADF` and releases nothing more. -/
theorem close_second_call (env : Windows.Env) (a : Windows.tapAdapter) (w : Windows.World)
    (t : Linux.tapInterface) (live : List Nat)
    (ha : a.sendChannel.closed = false) (hfd : t.fd ∈ live) (hnd : live.Nodup) :
    (∃ w1, Windows.tapAdapter.Close env a w
        = some ({ a with sendChannel := { a.sendChannel with closed := true } }, w1, none) ∧
      Windows.tapAdapter.Close env
        { a with sendChannel := { a.sendChannel with closed := true } } w1 = none) ∧
    (Linux.tapInterface.Close t live = (t, live.erase t.fd, none) ∧
      Linux.tapInterface.Close t (live.erase t.fd)
        = (t, live.erase t.fd, some Linux.EBADF)) := by
  obtain ⟨w1, h1⟩ := tapAdapter_Close_open env a w ha
  refine ⟨⟨w1, h1, tapAdapter_Close_closed env _ w1 rfl⟩, ?_, ?_⟩
  · simp [Linux.tapInterface.Close, unixClose_open live t.fd hfd]
  · have hn : t.fd ∉ live.erase t.fd := fun hm => (List.Nodup.mem_erase_iff hnd).mp hm |>.1 rfl
    simp [Linux.tapInterface.Close, unixClose_not_open _ t.fd hn]

/-- Witness of C1 amended: the two mock instances. -/
theorem close_second_call_witness :
    Linux.tapInterface.Close openInterface ([3].erase openInterface.fd)
      = (openInterface, [3].erase openInterface.fd, some Linux.EBADF) :=
  (close_second_call registryTwoMatches openAdapter openWorld openInterface [3]
    (by decide) (by decide) (by decide)).2.2

/-- C2, counterexample: on the driver-handle platform a push after `Close`
panics; on the character-device platform a push after `Close` is appended to
the outbound queue, and `toTapWorker` hands the frame to a backend write. -/
theorem push_after_close_counterexample :
    Windows.tapAdapter.Close registryTwoMatches openAdapter openWorld
      = some (closedAdapter, closedWorld, none) ∧
    closedAdapter.TransmitChannel.send [1, 2, 3] = .panics ∧
    (Linux.tapInterface.Close openInterface [3]).1.TransmitChannel.send [1, 2, 3]
      = .sent { buf := [[1, 2, 3]], cap := 4, closed := false } ∧
    (openInterface.toTapWorker (recordingWrite (fun _ => some Linux.EBADF)) 2
      { buf := [[1, 2, 3]], cap := 4, closed := false } [] []).dev = [(3, [1, 2, 3])] := by
  decide

/-- C2, amended: on the driver-handle platform every push onto the transmit
queue after a `Close` that returned panics, so the frame is not queued; on the
character-device platform `Close` leaves the transmit queue as it was, and a
push after `Close` onto an open queue with room appends the frame to it. -/
theorem push_after_close (env : Windows.Env) (a a1 : Windows.tapAdapter)
    (w w1 : Windows.World) (e : Option Error) (t : Linux.tapInterface) (live : List Nat)
    (p : Frame) (hc : Windows.tapAdapter.Close env a w = some (a1, w1, e))
    (hopen : t.writeChannel.closed = false)
    (hroom : t.writeChannel.buf.length < t.writeChannel.cap) :
    a1.TransmitChannel.send p = .panics ∧
    (Linux.tapInterface.Close t live).1.TransmitChannel = t.TransmitChannel ∧
    (Linux.tapInterface.Close t live).1.TransmitChannel.send p
      = .sent { t.writeChannel with buf := t.writeChannel.buf ++ [p] } := by
  refine ⟨?_, rfl, ?_⟩
  · unfold Windows.tapAdapter.Close at hc
    cases hcl : a.sendChannel.close with
    | none => simp [hcl] at hc
    | some ch =>
      have hch : ch.closed = true := by
        unfold Chan.close at hcl
        split at hcl
        · simp at hcl
        · simp only [Option.some.injEq] at hcl
          rw [← hcl]
      simp only [hcl, Option.some.injEq, Prod.mk.injEq] at hc
      rw [← hc.1]
      simp [Windows.tapAdapter.TransmitChannel, Chan.send, hch]
  · simp [Linux.tapInterface.Close, Linux.tapInterface.TransmitChannel, Chan.send, hopen,
      hroom]

/-- Witness of C2 amended: the two mock instances. -/
theorem push_after_close_witness :
    closedAdapter.TransmitChannel.send [1, 2, 3] = .panics :=
  (push_after_close registryTwoMatches openAdapter closedAdapter openWorld closedWorld none
    openInterface [3] [1, 2, 3] (by decide) (by decide) (by decide)).1

/-! ## Metadata -/

theorem copySlice_of_length_eq (dst src : List Byte) (h : src.length = dst.length) :
    copySlice dst src = src := by
  simp [copySlice, ← h]

theorem copySlice_copySlice (dst src : List Byte) :
    copySlice dst (copySlice dst src) = copySlice dst src :=
  copySlice_of_length_eq dst _ (copySlice_length dst src)

theorem MacAddr_zero_length : MacAddr.zero.length = 6 := by decide

theorem linux_newTAP_metadata (env : Linux.Env) (name : List Byte) (mtu : Int)
    (queueSize : Nat) (live live1 : List Nat) (t : Linux.tapInterface)
    (h : Linux.newTAP env name mtu queueSize live = some (.ok t, live1)) :
    ∃ iface, env.InterfaceByName t.name = .ok iface ∧ t.GetMTU = iface.MTU ∧
      t.GetMACAddress = copySlice MacAddr.zero iface.HardwareAddr := by
  unfold Linux.newTAP at h
  cases ho : env.openTun with
  | error e => simp [ho] at h
  | ok fd =>
    simp only [ho] at h
    cases hr : Linux.newTAP_ifr_req name with
    | none => simp [hr] at h
    | some req =>
      simp only [hr] at h
      cases hi : env.tunSetIff fd req with
      | error e => simp [hi] at h
      | ok reply =>
        simp only [hi] at h
        cases hp : parseName ((copySlice req reply).take 16) with
        | none => simp [hp] at h
        | some parsed =>
          simp only [hp] at h
          cases hn : env.InterfaceByName parsed with
          | error e => simp [hn] at h
          | ok iface =>
            simp only [hn, Option.some.injEq, Prod.mk.injEq, Except.ok.injEq] at h
            refine ⟨iface, ?_, ?_, ?_⟩
            · rw [← h.1]; exact hn
            · rw [← h.1]; rfl
            · rw [← h.1]
              exact copySlice_copySlice MacAddr.zero iface.HardwareAddr

theorem newTAP_fail_not_ok (env : Windows.Env) (a b : Windows.tapAdapter)
    (w w1 : Windows.World) (err : Error) :
    Windows.newTAP_fail env a w err ≠ some (.ok b, w1) := by
  unfold Windows.newTAP_fail
  cases Windows.tapAdapter.Close env a w with
  | none => simp
  | some r => obtain ⟨a1, w2, e⟩ := r; simp

theorem windows_newTAP_metadata (env : Windows.Env) (name : String) (mtu : Int)
    (queueSize : Nat) (w w1 : Windows.World) (a : Windows.tapAdapter)
    (h : Windows.newTAP env name mtu queueSize w = some (.ok a, w1)) :
    a.GetMTU = 0 ∧
    ∃ bytes, env.getMacAddressIoctl a.driverHandle = .ok bytes ∧
      a.GetMACAddress = copySlice MacAddr.zero bytes := by
  unfold Windows.newTAP at h
  rcases hk : Windows.getTAPAdapterRegistryKey env Windows.componentID w with ⟨rk, wk⟩
  rw [hk] at h
  cases rk with
  | error e => simp at h
  | ok key =>
    simp only at h
    cases hd : Windows.getDeviceID env key with
    | error e => simp [hd] at h
    | ok deviceID =>
      simp only [hd] at h
      rcases ho1 : Windows.createOverlapped env 0 wk with ⟨r1, wa⟩
      rw [ho1] at h
      cases r1 with
      | error e => simp at h
      | ok wo =>
        simp only at h
        rcases ho2 : Windows.createOverlapped env 1 wa with ⟨r2, wb⟩
        rw [ho2] at h
        cases r2 with
        | error e => simp at h
        | ok ro =>
          simp only at h
          cases hu : Windows.UTF16PtrFromString ("\\\\.\\Global\\" ++ deviceID ++ ".tap") with
          | error e => rw [hu] at h; exact absurd h (newTAP_fail_not_ok _ _ _ _ _ _)
          | ok path =>
            simp only [hu] at h
            cases hf : env.CreateFile path with
            | error e => rw [hf] at h; exact absurd h (newTAP_fail_not_ok _ _ _ _ _ _)
            | ok hnd =>
              simp only [hf] at h
              rcases hm : Windows.setMediaStatus env hnd true
                (wb.acquire (Windows.Resource.handle hnd)) with ⟨rm, wc⟩
              rw [hm] at h
              cases rm with
              | some e => exact absurd h (newTAP_fail_not_ok _ _ _ _ _ _)
              | none =>
                simp only at h
                cases hg : Windows.getMacAddr env hnd with
                | error e => rw [hg] at h; exact absurd h (newTAP_fail_not_ok _ _ _ _ _ _)
                | ok mac =>
                  simp only [hg] at h
                  cases hn : Windows.getAdapterName env mac with
                  | error e => rw [hn] at h; exact absurd h (newTAP_fail_not_ok _ _ _ _ _ _)
                  | ok nm =>
                    simp only [hn, Option.some.injEq, Prod.mk.injEq, Except.ok.injEq] at h
                    unfold Windows.getMacAddr at hg
                    cases hb : env.getMacAddressIoctl hnd with
                    | error e => simp [hb] at hg
                    | ok bytes =>
                      simp only [hb, Except.ok.injEq] at hg
                      refine ⟨by rw [← h.1]; rfl, bytes, by rw [← h.1]; exact hb, ?_⟩
                      rw [← h.1, ← hg]
                      simp only [Windows.tapAdapter.GetMACAddress, copySlice_copySlice]

/-- C7, the code at a failing input: on the driver-handle platform
construction on `registryTwoMatches` succeeds, the backend reports MTU 1500 for
the adapter (in the interface list `getAdapterName` enumerates and in the
registry value `getMTU` reads), and `GetMTU` of the instance is 0, not 1500;
on the character-device platform construction on `mockTun` succeeds and
`GetMTU` is the 1500 the interface lookup reported. -/
theorem windows_newTAP_never_sets_mtu :
    Windows.newTAP registryTwoMatches "" 9000 4 emptyWorld
      = some (.ok openAdapter, openWorld) ∧
    registryTwoMatches.Interfaces
      = .ok [{ Name := "Ethernet 2", MTU := 1500, HardwareAddr := [0, 255, 1, 2, 3, 4] }] ∧
    Windows.getMTU registryTwoMatches openAdapter.regKey = .ok "1500" ∧
    openAdapter.GetMTU = 0 ∧ openAdapter.GetMTU ≠ 1500 ∧
    Linux.newTAP mockTun [] 9000 4 [] = some (.ok openInterface, [3]) ∧
    mockTun.InterfaceByName openInterface.name
      = .ok { Name := tap0, MTU := 1500, HardwareAddr := [2, 0, 0, 0, 0, 1] } ∧
    openInterface.GetMTU = 1500 := by
  decide

/-- What every successful `newTAP` gives: on the character-device platform
`GetMTU` is the MTU and `GetMACAddress` the (6-byte) hardware address that the
interface lookup reported for the instance's name; on the driver-handle
platform `GetMACAddress` is the (6-byte) address the driver reported on the
instance's handle, while `GetMTU` is 0 on every backend, the field never being
assigned; on both platforms the result of `newTAP` is the same for every
requested mtu. -/
theorem metadata_after_construction (env : Linux.Env) (name : List Byte) (mtu : Int)
    (queueSize : Nat) (live live1 : List Nat) (t : Linux.tapInterface)
    (envW : Windows.Env) (nameW : String) (mtuW : Int) (queueSizeW : Nat)
    (w w1 : Windows.World) (a : Windows.tapAdapter)
    (h : Linux.newTAP env name mtu queueSize live = some (.ok t, live1))
    (hW : Windows.newTAP envW nameW mtuW queueSizeW w = some (.ok a, w1)) :
    (∃ iface, env.InterfaceByName t.name = .ok iface ∧ t.GetMTU = iface.MTU ∧
      t.GetMACAddress = copySlice MacAddr.zero iface.HardwareAddr ∧
      (iface.HardwareAddr.length = 6 → t.GetMACAddress = iface.HardwareAddr)) ∧
    (a.GetMTU = 0 ∧
      ∃ bytes, envW.getMacAddressIoctl a.driverHandle = .ok bytes ∧
        a.GetMACAddress = copySlice MacAddr.zero bytes ∧
        (bytes.length = 6 → a.GetMACAddress = bytes)) ∧
    (∀ mtu2 : Int, Linux.newTAP env name mtu2 queueSize live
        = Linux.newTAP env name mtu queueSize live) ∧
    (∀ mtu2 : Int, Windows.newTAP envW nameW mtu2 queueSizeW w
        = Windows.newTAP envW nameW mtuW queueSizeW w) := by
  obtain ⟨iface, h1, h2, h3⟩ := linux_newTAP_metadata env name mtu queueSize live live1 t h
  obtain ⟨h4, bytes, h5, h6⟩ := windows_newTAP_metadata envW nameW mtuW queueSizeW w w1 a hW
  refine ⟨⟨iface, h1, h2, h3, fun hl => ?_⟩, ⟨h4, bytes, h5, h6, fun hl => ?_⟩,
    fun _ => rfl, fun _ => rfl⟩
  · rw [h3]; exact copySlice_of_length_eq _ _ (by rw [hl, MacAddr_zero_length])
  · rw [h6]; exact copySlice_of_length_eq _ _ (by rw [hl, MacAddr_zero_length])

/-- The two mock backends satisfy the hypotheses of `metadata_after_construction`. -/
theorem metadata_after_construction_witness :
    openAdapter.GetMTU = 0 :=
  (metadata_after_construction mockTun [] 9000 4 [] [3] openInterface
    registryTwoMatches "" 9000 4 emptyWorld openWorld openAdapter
    (by decide) (by decide)).2.1.1

/-! ## Construction failures -/

theorem linux_newTAP_error_releases (env : Linux.Env) (name : List Byte) (mtu : Int)
    (queueSize : Nat) (live live1 : List Nat) (err : Error)
    (h : Linux.newTAP env name mtu queueSize live = some (.error err, live1)) :
    live1 = live := by
  unfold Linux.newTAP at h
  cases ho : env.openTun with
  | error e =>
    simp only [ho, Option.some.injEq, Prod.mk.injEq] at h
    exact h.2.symm
  | ok fd =>
    have hc : (Linux.unixClose (fd :: live) fd).1 = live := by simp [Linux.unixClose]
    simp only [ho] at h
    cases hr : Linux.newTAP_ifr_req name with
    | none => simp [hr] at h
    | some req =>
      simp only [hr] at h
      cases hi : env.tunSetIff fd req with
      | error e =>
        simp only [hi, Option.some.injEq, Prod.mk.injEq] at h
        rw [← h.2, hc]
      | ok reply =>
        simp only [hi] at h
        cases hp : parseName ((copySlice req reply).take 16) with
        | none => simp [hp] at h
        | some parsed =>
          simp only [hp] at h
          cases hn : env.InterfaceByName parsed with
          | error e =>
            simp only [hn, Option.some.injEq, Prod.mk.injEq] at h
            rw [← h.2, hc]
          | ok iface => simp [hn] at h

/-- C8, the code at two failing inputs: with a matching registry entry that
lacks `NetCfgInstanceId`, `newTAP` returns the error and leaves the matching
registry key 11 open; with no interface carrying the driver's address it
returns `ErrInterfaceNameNotFound` and leaves both event handles, 20 and 21,
open. -/
theorem windows_newTAP_leaks_on_failure :
    Windows.newTAP registryNoInstanceId "" 1500 4 emptyWorld
      = some (.error (.errno 2), { live := [.key 11], media := [], regWrites := [] }) ∧
    Windows.newTAP registryNoInterface "" 1500 4 emptyWorld
      = some (.error .ErrInterfaceNameNotFound,
          { live := [.handle 21, .handle 20], media := [(30, true), (30, false)],
            regWrites := [] }) := by
  decide

/-! ## The name hint -/

theorem take_set_of_le (l : List Byte) (a : Byte) (n m : Nat) (h : m ≤ n) :
    (l.set n a).take m = l.take m :=
  List.ext_getElem? fun i => by
    rw [List.getElem?_take, List.getElem?_take]
    split
    · rw [List.getElem?_set_ne (by omega)]
    · rfl

theorem untilZero_append_zero (name rest : List Byte) (h : (0 : Byte) ∉ name) :
    untilZero (name ++ 0 :: rest) = name := by
  induction name with
  | nil => simp [untilZero]
  | cons b t ih =>
    have hb : b ≠ 0 := fun hb => h (by simp [hb])
    have ht : (0 : Byte) ∉ t := fun hm => h (List.mem_cons_of_mem _ hm)
    simp [untilZero, hb, ih ht]

/-- C9, amended: for every non-empty name hint without a zero byte and of at
most 14 bytes, the request `newTAP` builds for the control call is 32 bytes
long, its 16-byte name field holds exactly the name followed by a zero byte,
and `parseName` of that field returns the name hint unchanged. -/
theorem newTAP_ifr_req_short_name (name : List Byte) (hne : name ≠ [])
    (h0 : (0 : Byte) ∉ name) (hlen : name.length ≤ 14) :
    ∃ req rest, Linux.newTAP_ifr_req name = some req ∧ req.length = 32 ∧
      req.take 16 = name ++ 0 :: rest ∧ parseName (req.take 16) = some name := by
  have hb : (name ++ [0]).length < 16 := by simp; omega
  have hreq : Linux.newTAP_ifr_req name
      = some (Linux.PutUint16
          (copySlice ((zeroBytes 32).take 15) (name ++ [0]) ++ (zeroBytes 32).drop 15) 16
          (Linux.IFF_TAP ||| Linux.IFF_NO_PI)) := by
    simp only [Linux.newTAP_ifr_req, Linux.StringByteSlice, h0, if_false]
    rw [if_pos ⟨hne, hb⟩]
  have h15 : ((zeroBytes 32).take 15).length = 15 := by
    rw [List.length_take, zeroBytes_length]
    rfl
  have hcopy : copySlice ((zeroBytes 32).take 15) (name ++ [0])
      = name ++ 0 :: ((zeroBytes 32).take 15).drop (name ++ [0]).length := by
    unfold copySlice
    rw [h15, List.take_of_length_le (by omega)]
    simp
  refine ⟨_, (((zeroBytes 32).take 15).drop (name ++ [0]).length
      ++ (zeroBytes 32).drop 15).take (16 - (name.length + 1)), hreq, ?_, ?_, ?_⟩
  · simp only [Linux.PutUint16, List.length_set, List.length_append, copySlice_length, h15,
      List.length_drop, zeroBytes_length]
  · unfold Linux.PutUint16
    rw [take_set_of_le _ _ _ _ (by omega), take_set_of_le _ _ _ _ (by omega), hcopy]
    have : name ++ 0 :: ((zeroBytes 32).take 15).drop (name ++ [0]).length
          ++ (zeroBytes 32).drop 15
        = (name ++ [0]) ++ (((zeroBytes 32).take 15).drop (name ++ [0]).length
          ++ (zeroBytes 32).drop 15) := by simp
    rw [this, List.take_append_eq_append_take, List.take_of_length_le (by omega)]
    simp
  · unfold Linux.PutUint16
    rw [take_set_of_le _ _ _ _ (by omega), take_set_of_le _ _ _ _ (by omega), hcopy,
      parseName_eq]
    have : name ++ 0 :: ((zeroBytes 32).take 15).drop (name ++ [0]).length
          ++ (zeroBytes 32).drop 15
        = (name ++ [0]) ++ (((zeroBytes 32).take 15).drop (name ++ [0]).length
          ++ (zeroBytes 32).drop 15) := by simp
    rw [this, List.take_append_eq_append_take, List.take_of_length_le (by omega)]
    simp only [List.append_assoc, List.singleton_append]
    rw [untilZero_append_zero name _ h0]

/-- Witness of C9 amended: the name `tap0`. -/
theorem newTAP_ifr_req_short_name_witness :
    ∃ req rest, Linux.newTAP_ifr_req tap0 = some req ∧ req.length = 32 ∧
      req.take 16 = tap0 ++ 0 :: rest ∧ parseName (req.take 16) = some tap0 :=
  newTAP_ifr_req_short_name tap0 (by decide) (by decide) (by decide)

/-- C9, counterexample: for the fifteen-byte name `abcdefghijklmno`, which has
no zero byte, the guard `len(b) < 16` fails on the 16-byte terminated copy, so
the request `newTAP` builds carries only the flags: its 16-byte name field is
all zero, and `parseName` of that field is the empty string, not the name. -/
theorem newTAP_ifr_req_drops_15_byte_name :
    name15.length = 15 ∧ (0 : Byte) ∉ name15 ∧
    Linux.newTAP_ifr_req name15 = some (Linux.PutUint16 (zeroBytes 32) 16 0x1002) ∧
    (Linux.PutUint16 (zeroBytes 32) 16 0x1002).take 16 = zeroBytes 16 ∧
    parseName ((Linux.PutUint16 (zeroBytes 32) 16 0x1002).take 16) = some [] ∧
    parseName ((Linux.PutUint16 (zeroBytes 32) 16 0x1002).take 16) ≠ some name15 := by
  decide

end Adapter
